import Mathlib

/-!
Shallow embedding of the no-post-hurricane-world pipeline
(src/ETL/extract.py, src/ETL/transform.py, src/analysis/visual_timeseries.py).

Tables are modelled positionally: an indicator table carries its list of
year columns and rows whose value list is aligned with that year list.
Missing cells (pandas NaN) are modelled as none; numeric cells as rationals.
-/

namespace PostHurricane

/-- A row of the WDI indicator table after the identity columns kept by the
transformer: Country Code, Indicator Name, and one value per year column. -/
structure DevRow where
  countryCode : String
  indicatorName : String
  values : List (Option ℚ)
deriving Repr, DecidableEq

/-- An indicator table: the year columns present (ascending labels) and the
rows, each row's value list aligned positionally with years. -/
structure IndicatorTable where
  years : List Nat
  rows : List DevRow
deriving Repr, DecidableEq

instance : Inhabited IndicatorTable := ⟨⟨[], []⟩⟩

/-- Number of missing (NaN) cells in a value list: isna().sum(axis=1). -/
def noneCount (xs : List (Option ℚ)) : Nat := (xs.filter Option.isNone).length

/-- Label-based cell lookup: the value of a row (aligned with the table's
year columns) at the column labelled y; none when the label is absent. -/
def yearValue (years : List Nat) (vals : List (Option ℚ)) (y : Nat) : Option ℚ :=
  match years.indexOf? y with
  | some i => vals.getD i none
  | none => none

/-- The year labels requested by transform.py line 50:
[str(year) for year in range(df_min_year, df_max_year + 1)]. -/
def wantedYears (mn mx : Nat) : List Nat := List.range' mn (mx + 1 - mn)

/-- Restrict a row to the requested year columns (label selection). -/
def selectRow (years : List Nat) (wanted : List Nat) (r : DevRow) : DevRow :=
  { r with values := wanted.map (yearValue years r.values) }

/-- transform.py lines 48-51: .loc column selection on
['Country Code', 'Indicator Name'] + year labels.  Selecting a label that
is not a column of the frame raises a KeyError; with min > max the label
list is empty and nothing is raised. -/
def selectColumns (t : IndicatorTable) (mn mx : Nat) : Except String IndicatorTable :=
  let wanted := wantedYears mn mx
  if wanted.all (fun y => t.years.contains y) then
    Except.ok { years := wanted, rows := t.rows.map (selectRow t.years wanted) }
  else
    Except.error "KeyError: year columns missing from input table"

/-- transform.py line 61: the helper column
df['NaN_count'] = df.iloc[:, 2:].isna().sum(axis=1). -/
def addNanCount (rows : List DevRow) : List (DevRow × Nat) :=
  rows.map (fun r => (r, noneCount r.values))

/-- transform.py lines 61-65: add NaN_count, keep rows with
NaN_count <= num_year_columns // 2, then drop the helper column. -/
def densityStage (half : Nat) (rows : List DevRow) : List DevRow :=
  ((addNanCount rows).filter (fun p => p.2 ≤ half)).map Prod.fst

/-- (df.iloc[:, 2:] == 0).all(axis=1): true iff every year cell is present
and equal to 0 (pandas NaN == 0 evaluates to False). -/
def allZeroB (vals : List (Option ℚ)) : Bool := vals.all (fun v => v == some 0)

/-- transform.py lines 68-70: drop rows whose year cells are all zero. -/
def allZeroStage (rows : List DevRow) : List DevRow :=
  rows.filter (fun r => ! allZeroB r.values)

/-- The known cells of a row with their positions. -/
def knownIdx (xs : List (Option ℚ)) : List (Nat × ℚ) :=
  xs.enum.filterMap (fun p => p.2.map (fun q => (p.1, q)))

/-- One cell of pandas interpolate(axis=1, method='linear') with the default
forward limit direction: a known cell is kept; a missing cell bounded by a
known cell on each side is filled linearly by position; a missing cell with
known cells only on the left is clamped to the nearest left value; a missing
cell with no known cell on its left stays missing. -/
def interpAt (xs : List (Option ℚ)) (i : Nat) : Option ℚ :=
  match xs.getD i none with
  | some v => some v
  | none =>
    match ((knownIdx xs).filter (fun p => p.1 < i)).getLast?,
          ((knownIdx xs).filter (fun p => i < p.1)).head? with
    | some jp, some kp =>
        some (jp.2 + (kp.2 - jp.2) * (((i : ℚ) - (jp.1 : ℚ)) / ((kp.1 : ℚ) - (jp.1 : ℚ))))
    | some jp, none => some jp.2
    | none, _ => none

/-- Row-wise interpolate (transform.py line 82). -/
def interpolateRow (xs : List (Option ℚ)) : List (Option ℚ) :=
  (List.range xs.length).map (interpAt xs)

/-- Row-wise bfill(axis=1) (line 83): each cell takes the first known value
at its own position or to its right. -/
def bfillRow (xs : List (Option ℚ)) : List (Option ℚ) :=
  (List.range xs.length).map (fun i => (xs.drop i).findSome? id)

/-- Row-wise ffill(axis=1) (line 84): each cell takes the nearest known
value at its own position or to its left. -/
def ffillRow (xs : List (Option ℚ)) : List (Option ℚ) :=
  (List.range xs.length).map (fun i => ((xs.take (i + 1)).reverse).findSome? id)

/-- The composite gap-resolution applied to one row (lines 80-85). -/
def resolveRow (xs : List (Option ℚ)) : List (Option ℚ) :=
  ffillRow (bfillRow (interpolateRow xs))

/-- df.iloc[:, 2:].isna().any().any() (line 79). -/
def anyNaN (rows : List DevRow) : Bool :=
  rows.any (fun r => r.values.any Option.isNone)

/-- transform.py lines 79-85: when any NaN remains, rewrite the year block
of every row with interpolate + bfill + ffill; otherwise leave it alone. -/
def resolveStage (rows : List DevRow) : List DevRow :=
  if anyNaN rows then rows.map (fun r => { r with values := resolveRow r.values }) else rows

/-- transform.py transform_development_data: column-range selection,
density filter, all-zero filter, gap resolution.  The country code only
feeds log lines and the optional CSV name. -/
def transform_development_data (cc : String) (t : IndicatorTable) (mn mx : Nat) :
    Except String IndicatorTable :=
  match selectColumns t mn mx with
  | Except.error e => Except.error e
  | Except.ok sel =>
    let half := sel.years.length / 2
    let afterDensity := densityStage half sel.rows
    let afterZero := allZeroStage afterDensity
    let final := resolveStage afterZero
    Except.ok { years := sel.years, rows := final }

/-- A row of the EM-DAT disaster table (the columns the pipeline touches). -/
structure DisasterRow where
  startYear : Int
  magnitudeScale : String
  magnitude : ℚ
  totalAffected : ℚ
  eventName : String
  ofdaResponse : String
deriving Repr, DecidableEq

/-- transform.py transform_disaster_data: three successive boolean-mask
filters (lines 136-137, 141-144, 147). -/
def transform_disaster_data (cc : String) (rows : List DisasterRow) (mn mx : Int)
    (minTotalAffected : ℚ) : List DisasterRow :=
  let s1 := rows.filter (fun r => decide (mn ≤ r.startYear) && decide (r.startYear ≤ mx))
  let s2 := s1.filter (fun r => r.magnitudeScale == "Kph" && decide ((178 : ℚ) ≤ r.magnitude))
  s2.filter (fun r => decide (minTotalAffected ≤ r.totalAffected))

/-! ## Helper lemmas about the pipeline stages -/

theorem densityStage_eq_filter (half : Nat) (rows : List DevRow) :
    densityStage half rows = rows.filter (fun r => decide (noneCount r.values ≤ half)) := by
  induction rows with
  | nil => rfl
  | cons a l ih =>
    by_cases h : noneCount a.values ≤ half <;>
      simp only [densityStage, addNanCount, List.map_cons, List.filter_cons, h, decide_True,
        decide_False, List.map_cons] <;>
      simpa [densityStage, addNanCount] using ih

theorem noneCount_eq_zero_iff (xs : List (Option ℚ)) :
    noneCount xs = 0 ↔ ∀ x ∈ xs, x ≠ none := by
  simp [noneCount, List.length_eq_zero, List.filter_eq_nil_iff, Option.isNone_iff_eq_none]

theorem exists_some_of_noneCount_lt {xs : List (Option ℚ)} (h : noneCount xs < xs.length) :
    ∃ v : ℚ, some v ∈ xs := by
  induction xs with
  | nil => simp [noneCount] at h
  | cons x l ih =>
    cases x with
    | some v => exact ⟨v, List.mem_cons_self _ _⟩
    | none =>
      have h' : noneCount l < l.length := by
        simpa [noneCount, List.filter_cons, Nat.succ_lt_succ_iff] using h
      obtain ⟨v, hv⟩ := ih h'
      exact ⟨v, List.mem_cons_of_mem _ hv⟩

theorem findSome?_id_isSome_of_mem {l : List (Option ℚ)} {v : ℚ} (h : some v ∈ l) :
    (l.findSome? id).isSome = true := by
  rcases ho : l.findSome? id with _ | w
  · rw [List.findSome?_eq_none_iff] at ho
    exact absurd (ho _ h) (by simp)
  · rfl

theorem interpAt_of_known {xs : List (Option ℚ)} {i : Nat} {v : ℚ}
    (h : xs.getD i none = some v) : interpAt xs i = some v := by
  unfold interpAt
  rw [h]

theorem interpolateRow_getElem? {xs : List (Option ℚ)} {i : Nat} {v : ℚ}
    (h : xs[i]? = some (some v)) : (interpolateRow xs)[i]? = some (some v) := by
  have hi : i < xs.length := by
    by_contra hh
    rw [List.getElem?_eq_none (by omega)] at h
    cases h
  have hv : xs.getD i none = some v := by
    rw [List.getD_eq_getElem?_getD, h]
    rfl
  simp [interpolateRow, List.getElem?_range hi, interpAt_of_known hv]

theorem bfillRow_getElem? (xs : List (Option ℚ)) {j : Nat} (hj : j < xs.length) :
    (bfillRow xs)[j]? = some ((xs.drop j).findSome? id) := by
  simp [bfillRow, List.getElem?_range hj]

theorem ffillRow_getElem? (xs : List (Option ℚ)) {j : Nat} (hj : j < xs.length) :
    (ffillRow xs)[j]? = some (((xs.take (j + 1)).reverse).findSome? id) := by
  simp [ffillRow, List.getElem?_range hj]

theorem resolveRow_all_some {xs : List (Option ℚ)} {v : ℚ} (h : some v ∈ xs) :
    ∀ x ∈ resolveRow xs, x ≠ none := by
  obtain ⟨i, hi, hix⟩ := List.getElem_of_mem h
  have hix? : xs[i]? = some (some v) := by rw [List.getElem?_eq_getElem hi, hix]
  have hz? : (interpolateRow xs)[i]? = some (some v) := interpolateRow_getElem? hix?
  have hzlen : (interpolateRow xs).length = xs.length := by simp [interpolateRow]
  have hylen : (bfillRow (interpolateRow xs)).length = xs.length := by
    simp [bfillRow, hzlen]
  -- every cell of the bfilled row at a position at or before i is known
  have hym : ∀ m, m ≤ i → ∃ w, (bfillRow (interpolateRow xs))[m]? = some (some w) := by
    intro m hm
    have hmlt : m < (interpolateRow xs).length := by omega
    have hb := bfillRow_getElem? (interpolateRow xs) hmlt
    have hdrop : ((interpolateRow xs).drop m)[i - m]? = some (some v) := by
      rw [List.getElem?_drop]
      have : m + (i - m) = i := by omega
      rw [this, hz?]
    have hmem : some v ∈ (interpolateRow xs).drop m :=
      List.mem_iff_getElem?.mpr ⟨i - m, hdrop⟩
    obtain ⟨w, hw⟩ := Option.isSome_iff_exists.mp (findSome?_id_isSome_of_mem hmem)
    exact ⟨w, by rw [hb, hw]⟩
  intro x hx
  obtain ⟨j, hjl, hjx⟩ := List.getElem_of_mem hx
  have hjlen : j < (bfillRow (interpolateRow xs)).length := by
    simpa [resolveRow, ffillRow] using hjl
  have hxval := ffillRow_getElem? (bfillRow (interpolateRow xs)) hjlen
  have hx? : (resolveRow xs)[j]? = some x := by
    rw [List.getElem?_eq_getElem hjl, hjx]
  rw [resolveRow] at hx?
  rw [hxval] at hx?
  obtain ⟨w, hw⟩ := hym (min i j) (Nat.min_le_left _ _)
  have htake : ((bfillRow (interpolateRow xs)).take (j + 1))[min i j]? = some (some w) := by
    rw [List.getElem?_take_of_lt (by omega)]
    exact hw
  have hmem2 : some w ∈ ((bfillRow (interpolateRow xs)).take (j + 1)).reverse :=
    List.mem_reverse.mpr (List.mem_iff_getElem?.mpr ⟨min i j, htake⟩)
  have hsome := findSome?_id_isSome_of_mem hmem2
  intro hxn
  rw [hxn] at hx?
  have : (((bfillRow (interpolateRow xs)).take (j + 1)).reverse).findSome? id = none :=
    Option.some_inj.mp hx?
  rw [this] at hsome
  cases hsome

theorem mem_resolveStage {rows : List DevRow} {r : DevRow} (h : r ∈ resolveStage rows) :
    (anyNaN rows = false ∧ r ∈ rows) ∨
      (∃ r0 ∈ rows, r = { r0 with values := resolveRow r0.values }) := by
  unfold resolveStage at h
  by_cases ha : anyNaN rows = true
  · rw [if_pos ha] at h
    right
    obtain ⟨r0, hr0, hr⟩ := List.mem_map.mp h
    exact ⟨r0, hr0, hr.symm⟩
  · left
    rw [if_neg ha] at h
    exact ⟨by simpa using ha, h⟩

theorem selectColumns_ok {t : IndicatorTable} {mn mx : Nat} {sel : IndicatorTable}
    (h : selectColumns t mn mx = Except.ok sel) :
    sel.years = wantedYears mn mx ∧
      sel.rows = t.rows.map (selectRow t.years (wantedYears mn mx)) := by
  unfold selectColumns at h
  by_cases hc : (wantedYears mn mx).all (fun y => t.years.contains y) = true
  · simp only [hc, if_true] at h
    cases h
    exact ⟨rfl, rfl⟩
  · simp only [hc] at h
    simp at h

theorem selectColumns_row_length {t : IndicatorTable} {mn mx : Nat} {sel : IndicatorTable}
    (h : selectColumns t mn mx = Except.ok sel) :
    ∀ r ∈ sel.rows, r.values.length = sel.years.length := by
  obtain ⟨hy, hr⟩ := selectColumns_ok h
  intro r hmem
  rw [hr] at hmem
  obtain ⟨a, _, rfl⟩ := List.mem_map.mp hmem
  simp [selectRow, hy]

/-! ## Claim theorems -/

/-- C3: in transform_development_data, with year-column count N, the density
filter retains exactly the rows whose missing count is at most N / 2 (floor
division): a row with exactly N / 2 missing values is kept, and a row with
N / 2 + 1 or more missing values (count not at most N / 2) is dropped. -/
theorem density_filter_threshold (N : Nat) (rows : List DevRow) (r : DevRow) :
    r ∈ densityStage (N / 2) rows ↔ r ∈ rows ∧ noneCount r.values ≤ N / 2 := by
  rw [densityStage_eq_filter]
  simp [List.mem_filter]

/-- C7: the all-zero filter of transform_development_data drops exactly the
rows whose every year cell is present and equal to 0; a row with at least
one missing cell is kept by this filter even if all its present cells are 0,
because pandas evaluates NaN == 0 as False. -/
theorem all_zero_filter_exact (rows : List DevRow) (r : DevRow) :
    r ∈ allZeroStage rows ↔ r ∈ rows ∧ ¬(∀ v ∈ r.values, v = some 0) := by
  simp [allZeroStage, List.mem_filter, allZeroB, List.all_eq_true]

/-- C4: transform_disaster_data retains exactly the event rows satisfying
the conjunction of the year-range, magnitude-scale, magnitude-threshold and
total-affected predicates; in particular an event with totalAffected one
below the threshold fails the last conjunct and is excluded, while one with
totalAffected exactly at the threshold is included. -/
theorem disaster_filter_conjunction (cc : String) (rows : List DisasterRow)
    (mn mx : Int) (mta : ℚ) (r : DisasterRow) :
    r ∈ transform_disaster_data cc rows mn mx mta ↔
      r ∈ rows ∧ mn ≤ r.startYear ∧ r.startYear ≤ mx ∧
        r.magnitudeScale = "Kph" ∧ (178 : ℚ) ≤ r.magnitude ∧ mta ≤ r.totalAffected := by
  simp only [transform_disaster_data, List.mem_filter, Bool.and_eq_true, decide_eq_true_eq,
    beq_iff_eq]
  tauto

/-- C6: the gap-resolution step of transform_development_data (linear
interpolation, then backward fill, then forward fill along the year axis)
maps the row [None, None, 10, None, 20, None] over six consecutive year
columns to [10, 10, 10, 15, 20, 20]. -/
theorem gap_resolution_example :
    resolveStage [⟨"PHL", "GDP", [none, none, some 10, none, some 20, none]⟩] =
      [⟨"PHL", "GDP", [some 10, some 10, some 10, some 15, some 20, some 20]⟩] := by
  have h3 : interpAt [none, none, some 10, none, some 20, none] 3 = some 15 := by
    simp [interpAt, knownIdx, List.enum, List.enumFrom]
    norm_num
  have hi : interpolateRow [none, none, some 10, none, some 20, none] =
      [none, none, some 10, some 15, some 20, some 20] := by
    have hexp : interpolateRow [none, none, some 10, none, some 20, none] =
        [interpAt [none, none, some 10, none, some 20, none] 0,
         interpAt [none, none, some 10, none, some 20, none] 1,
         interpAt [none, none, some 10, none, some 20, none] 2,
         interpAt [none, none, some 10, none, some 20, none] 3,
         interpAt [none, none, some 10, none, some 20, none] 4,
         interpAt [none, none, some 10, none, some 20, none] 5] := rfl
    rw [hexp, h3]
    rfl
  have hr : resolveRow [none, none, some 10, none, some 20, none] =
      [some 10, some 10, some 10, some 15, some 20, some 20] := by
    rw [resolveRow, hi]
    rfl
  have ha : anyNaN [⟨"PHL", "GDP", [none, none, some 10, none, some 20, none]⟩] = true := rfl
  unfold resolveStage
  rw [ha]
  simp only [if_true, List.map]
  rw [hr]

/-- C1: whenever transform_development_data returns a table, every returned
row has zero missing values across the year columns, for every input table
and year range: the density filter guarantees each surviving row has a known
cell, the interpolate + bfill + ffill pass then fills every gap, and when the
pass is skipped no gap existed. -/
theorem transform_output_no_missing (cc : String) (t : IndicatorTable) (mn mx : Nat)
    (out : IndicatorTable) (h : transform_development_data cc t mn mx = Except.ok out) :
    ∀ r ∈ out.rows, noneCount r.values = 0 := by
  unfold transform_development_data at h
  cases hsel : selectColumns t mn mx with
  | error e =>
    rw [hsel] at h
    cases h
  | ok sel =>
    rw [hsel] at h
    simp only [Except.ok.injEq] at h
    subst h
    intro r hr
    rcases mem_resolveStage hr with ⟨hno, hrz⟩ | ⟨r0, hr0, rfl⟩
    · rw [noneCount_eq_zero_iff]
      intro x hx hxn
      unfold anyNaN at hno
      have hrow := (List.any_eq_false.mp hno) r hrz
      rw [Bool.not_eq_true] at hrow
      have hx' := (List.any_eq_false.mp hrow) x hx
      rw [hxn] at hx'
      exact hx' rfl
    · rw [noneCount_eq_zero_iff]
      have hr0' := hr0
      unfold allZeroStage at hr0'
      have hz := List.mem_filter.mp hr0'
      have hd : r0 ∈ sel.rows ∧ noneCount r0.values ≤ sel.years.length / 2 := by
        have hmem := hz.1
        rw [densityStage_eq_filter] at hmem
        simpa using List.mem_filter.mp hmem
      have hlen : r0.values.length = sel.years.length :=
        selectColumns_row_length hsel r0 hd.1
      by_cases hN : sel.years.length = 0
      · exfalso
        have hval : r0.values = [] := List.length_eq_zero.mp (by omega)
        have hzz := hz.2
        rw [hval] at hzz
        simp [allZeroB] at hzz
      · have hlt : noneCount r0.values < r0.values.length := by
          have h2 := hd.2
          have h3 : sel.years.length / 2 < sel.years.length :=
            Nat.div_lt_self (Nat.pos_of_ne_zero hN) (by omega)
          omega
        obtain ⟨v, hv⟩ := exists_some_of_noneCount_lt hlt
        exact resolveRow_all_some hv

/-- The concrete table used to discharge C1's hypotheses: one indicator row
with a single trailing gap. -/
def c1Table : IndicatorTable :=
  ⟨[2000, 2001, 2002], [⟨"PHL", "Population", [some 5, some 7, none]⟩]⟩

/-- Witness for C1 at a concrete input: the transformed row has no gaps. -/
theorem transform_output_no_missing_witness :
    noneCount [some (5 : ℚ), some 7, some 7] = 0 :=
  transform_output_no_missing "PHL" c1Table 2000 2002
    ⟨[2000, 2001, 2002], [⟨"PHL", "Population", [some 5, some 7, some 7]⟩]⟩ rfl
    ⟨"PHL", "Population", [some 5, some 7, some 7]⟩ (List.mem_singleton.mpr rfl)

/-- The concrete table used against C2 and for the amended C2. -/
def c2Table : IndicatorTable :=
  ⟨[2000, 2001], [⟨"PRI", "GDP per capita", [some 1, some 2]⟩]⟩

/-- C2 counterexample: with df_min_year = 2023 > df_max_year = 2007 the
transformer does not fail at all — the requested year-label list is empty,
so the column selection succeeds and an empty table is returned, contrary
to the claimed InvalidRangeError. -/
theorem invalid_range_counterexample :
    transform_development_data "PRI" c2Table 2023 2007 =
      Except.ok { years := [], rows := [] } := by
  rfl

/-- Helper: a requested year absent from the input's columns makes the
label selection — and hence the transformer — raise. -/
theorem transform_error_of_missing_year (cc : String) (t : IndicatorTable) (mn mx y : Nat)
    (h1 : mn ≤ y) (h2 : y ≤ mx) (h3 : y ∉ t.years) :
    transform_development_data cc t mn mx =
      Except.error "KeyError: year columns missing from input table" := by
  have hy : y ∈ wantedYears mn mx := by
    rw [wantedYears, List.mem_range']
    exact ⟨y - mn, by omega, by omega⟩
  have hall : ((wantedYears mn mx).all (fun z => t.years.contains z)) = false := by
    rw [List.all_eq_false]
    exact ⟨y, hy, by simpa using h3⟩
  unfold transform_development_data selectColumns
  dsimp only
  rw [hall]
  rfl

/-- Helper: with a reversed range the transformer returns the empty
identity-columns-only table (the traced code path behind C2 and C10). -/
theorem transform_empty_range_aux (cc : String) (t : IndicatorTable) (mn mx : Nat)
    (h : mx < mn) :
    transform_development_data cc t mn mx = Except.ok { years := [], rows := [] } := by
  have hw : wantedYears mn mx = [] := by
    rw [wantedYears]
    have h0 : mx + 1 - mn = 0 := by omega
    rw [h0]
    rfl
  have hsel : selectColumns t mn mx =
      Except.ok { years := [], rows := t.rows.map (selectRow t.years []) } := by
    unfold selectColumns
    rw [hw]
    rfl
  have hz : ∀ half, allZeroStage (densityStage half (t.rows.map (selectRow t.years []))) =
      [] := by
    intro half
    unfold allZeroStage
    rw [List.filter_eq_nil_iff]
    intro r hrmem
    have hrv : r.values = [] := by
      rw [densityStage_eq_filter] at hrmem
      obtain ⟨a, _, rfl⟩ := List.mem_map.mp (List.mem_filter.mp hrmem).1
      rfl
    simp [allZeroB, hrv]
  unfold transform_development_data
  rw [hsel]
  dsimp only
  rw [hz]
  rfl

/-- C2 amended: when df_min_year <= df_max_year the transformer fails —
with the KeyError raised by .loc label selection, the code's realization of
the spec's InvalidRangeError — if and only if some year in
[df_min_year, df_max_year] is not a column of the input, in particular
whenever the input has no year columns in the range; and when
df_min_year > df_max_year it does not fail: it returns the empty
identity-columns-only table.  Stated as a biconditional characterizing the
failure (the existential is unsatisfiable when the range is reversed)
together with the general reversed-range clause. -/
theorem transform_range_error_characterization (cc : String) (t : IndicatorTable)
    (mn mx : Nat) :
    (transform_development_data cc t mn mx =
        Except.error "KeyError: year columns missing from input table" ↔
      ∃ y, mn ≤ y ∧ y ≤ mx ∧ y ∉ t.years) ∧
    (mx < mn →
      transform_development_data cc t mn mx = Except.ok { years := [], rows := [] }) := by
  refine ⟨⟨?_, ?_⟩, transform_empty_range_aux cc t mn mx⟩
  · intro he
    by_cases hc : ((wantedYears mn mx).all (fun y => t.years.contains y)) = true
    · exfalso
      have hsel : selectColumns t mn mx = Except.ok
          { years := wantedYears mn mx
            rows := t.rows.map (selectRow t.years (wantedYears mn mx)) } := by
        unfold selectColumns
        dsimp only
        rw [if_pos hc]
      have htr : transform_development_data cc t mn mx = Except.ok
          { years := wantedYears mn mx
            rows := resolveStage (allZeroStage (densityStage
              ((wantedYears mn mx).length / 2)
              (t.rows.map (selectRow t.years (wantedYears mn mx))))) } := by
        unfold transform_development_data
        rw [hsel]
      rw [htr] at he
      exact Except.noConfusion he
    · rw [Bool.not_eq_true, List.all_eq_false] at hc
      obtain ⟨y, hy, hyc⟩ := hc
      rw [wantedYears, List.mem_range'] at hy
      obtain ⟨i, hi, rfl⟩ := hy
      refine ⟨mn + 1 * i, by omega, by omega, ?_⟩
      simpa using hyc
  · rintro ⟨y, h1, h2, h3⟩
    exact transform_error_of_missing_year cc t mn mx y h1 h2 h3

/-- Witness for the amended C2 at concrete inputs: requesting 2007-2008
from a table whose year columns are 2000-2001 raises the selection error,
and the reversed range 2023..2007 on the same table returns the empty
table. -/
theorem transform_range_error_characterization_witness :
    transform_development_data "PRI" c2Table 2007 2008 =
        Except.error "KeyError: year columns missing from input table" ∧
      transform_development_data "PRI" c2Table 2023 2007 =
        Except.ok { years := [], rows := [] } :=
  ⟨((transform_range_error_characterization "PRI" c2Table 2007 2008).1).mpr
      ⟨2007, by decide, by decide, by decide⟩,
    (transform_range_error_characterization "PRI" c2Table 2023 2007).2 (by decide)⟩

/-- C10: when df_min_year > df_max_year the transformer does not raise:
zero year columns are selected, every row passes the density filter, the
vacuously-true all-zero check drops every row, and the result has only the
two identity columns and zero rows. -/
theorem empty_range_returns_empty (cc : String) (t : IndicatorTable) (mn mx : Nat)
    (h : mx < mn) :
    transform_development_data cc t mn mx = Except.ok { years := [], rows := [] } :=
  transform_empty_range_aux cc t mn mx h

/-- The concrete table used to discharge C10's hypothesis. -/
def c10Table : IndicatorTable := ⟨[1999, 2000], [⟨"JPN", "GDP", [some 3, some 4]⟩]⟩

/-- Witness for C10 at a concrete input. -/
theorem empty_range_returns_empty_witness :
    transform_development_data "JPN" c10Table 2023 2007 =
      Except.ok { years := [], rows := [] } :=
  empty_range_returns_empty "JPN" c10Table 2023 2007 (by decide)

/-! ## extract.py: batch fetch policy -/

/-- One fetched batch frame, modelled as its list of series columns; only
identity and emptiness of a batch matter to the batch policy. -/
abbrev BatchDf := List String

/-- extract.py lines 51-67: fold over the batch fetch outcomes.  A raised
fetch is logged and skipped; a successful nonempty frame is appended to
batch_dfs; a successful empty frame is not appended. -/
def collectBatches (fetches : List (Except String BatchDf)) : List BatchDf :=
  fetches.foldl
    (fun acc r =>
      match r with
      | Except.ok df => if df.isEmpty then acc else acc ++ [df]
      | Except.error _ => acc)
    []

/-- extract.py lines 51-74: when batch_dfs is empty an error is printed and
None is returned (lines 69-71); otherwise the collected batches are combined
(pd.concat, line 74).  The later melt / pivot reformatting (lines 77-104) is
a deterministic reshaping of the combined frame and leaves the some / none
structure settled here untouched. -/
def extract_development_data (fetches : List (Except String BatchDf)) :
    Option (List BatchDf) :=
  let batch_dfs := collectBatches fetches
  if batch_dfs.isEmpty then none else some batch_dfs

/-- The successful nonempty batches, phrased directly as a filter over the
fetch outcomes. -/
def successfulBatches (fetches : List (Except String BatchDf)) : List BatchDf :=
  fetches.filterMap
    (fun r =>
      match r with
      | Except.ok df => if df.isEmpty then none else some df
      | Except.error _ => none)

/-- main.py line 42 feeding transform.py line 46: the transform stage begins
with development_data.copy(); on a None input that attribute access raises,
which transform re-raises, so the run aborts instead of producing a table. -/
def devCopy {α : Type} (d : Option α) : Except String α :=
  match d with
  | none => Except.error "AttributeError: NoneType has no attribute copy"
  | some t => Except.ok t

theorem successfulBatches_cons_error (e : String) (l : List (Except String BatchDf)) :
    successfulBatches (Except.error e :: l) = successfulBatches l := by
  simp [successfulBatches, List.filterMap_cons]

theorem successfulBatches_cons_ok (df : BatchDf) (l : List (Except String BatchDf)) :
    successfulBatches (Except.ok df :: l) =
      if df.isEmpty then successfulBatches l else df :: successfulBatches l := by
  by_cases h : df = [] <;> simp [successfulBatches, List.filterMap_cons, h]

theorem collectBatches_eq (fetches : List (Except String BatchDf)) :
    collectBatches fetches = successfulBatches fetches := by
  suffices h : ∀ acc, List.foldl
      (fun acc r =>
        match r with
        | Except.ok df => if df.isEmpty then acc else acc ++ [df]
        | Except.error _ => acc)
      acc fetches = acc ++ successfulBatches fetches by
    simpa [collectBatches] using h []
  induction fetches with
  | nil =>
    intro acc
    simp [successfulBatches]
  | cons a l ih =>
    intro acc
    cases a with
    | error e =>
      rw [List.foldl_cons, ih]
      show acc ++ successfulBatches l = _
      rw [successfulBatches_cons_error]
    | ok df =>
      rw [List.foldl_cons, ih]
      show (if df.isEmpty then acc else acc ++ [df]) ++ successfulBatches l = _
      rw [successfulBatches_cons_ok]
      by_cases h : df.isEmpty
      · rw [if_pos h, if_pos h]
      · rw [if_neg h, if_neg h, List.append_assoc]
        rfl

/-- C8: the extractor skips failed batches and returns exactly the combined
successful nonempty batches when at least one exists; when zero batches
succeed it returns None, and the pipeline's subsequent transform stage
raises on that None instead of producing a usable table. -/
theorem extract_batch_policy (fetches : List (Except String BatchDf)) :
    extract_development_data fetches =
      (if successfulBatches fetches = [] then none
       else some (successfulBatches fetches)) ∧
    devCopy (extract_development_data fetches) =
      (if successfulBatches fetches = [] then
        Except.error "AttributeError: NoneType has no attribute copy"
       else Except.ok (successfulBatches fetches)) := by
  have hco := collectBatches_eq fetches
  by_cases h : successfulBatches fetches = [] <;>
    constructor <;>
      simp [extract_development_data, hco, devCopy, List.isEmpty_iff, h]

/-! ## visual_timeseries.py: report rendering -/

/-- One page of the report: the 1-based position of the indicator row that
produced it, the chart title, and the vertical-marker labels drawn for the
disaster events whose start year lies among the chart's year columns. -/
structure Page where
  idx : Nat
  title : String
  markers : List String
deriving Repr, DecidableEq

/-- visual_timeseries.py line 83: the legend label of one disaster event;
for the special-cased pair PRI / USA the aid-response suffix is omitted. -/
def markerLabel (cc : String) (d : DisasterRow) : String :=
  d.eventName ++
    (if cc = "PRI" ∨ cc = "USA" then ""
     else if d.ofdaResponse = "Yes" then " (US Response)" else " (No US Response)")

/-- visual_timeseries.py lines 75-90: one dashed vertical marker per disaster
event whose start year appears among the chart's year columns. -/
def pageMarkers (cc : String) (years : List Nat) (dis : List DisasterRow) : List String :=
  (dis.filter (fun d => years.any (fun y => (y : Int) == d.startYear))).map (markerLabel cc)

/-- The page emitted for indicator number i (title built at line 93). -/
def renderPage (cc : String) (years : List Nat) (dis : List DisasterRow)
    (i : Nat) (r : DevRow) : Page :=
  { idx := i, title := cc ++ ": " ++ r.indicatorName, markers := pageMarkers cc years dis }

/-- visual_timeseries.py lines 57-107: the enumerate loop.  A row whose year
cells are all missing is skipped with a warning (lines 64-66); a failure of
the external plotting machinery for row i — modelled by the oracle
plotFails — is caught, logged and skipped (lines 68 and 105-107); otherwise
the figure is saved as the next page (line 102). -/
def reportLoop (cc : String) (years : List Nat) (dis : List DisasterRow)
    (plotFails : Nat → Bool) : Nat → List DevRow → List Page
  | _, [] => []
  | i, r :: rest =>
    if r.values.all Option.isNone then reportLoop cc years dis plotFails (i + 1) rest
    else if plotFails i then reportLoop cc years dis plotFails (i + 1) rest
    else renderPage cc years dis i r :: reportLoop cc years dis plotFails (i + 1) rest

/-- visual_timeseries.py generate_report: loop over the indicator rows with
the page counter started at 1 (enumerate(..., start=1) at line 57). -/
def generate_report (cc : String) (dev : IndicatorTable) (dis : List DisasterRow)
    (plotFails : Nat → Bool) : List Page :=
  reportLoop cc dev.years dis plotFails 1 dev.rows

/-- Specification-side description of the renderer, written from the spec's
words for the refinement statement: one page for each indicator row that is
neither skipped for all-missing data nor failed, kept in the original
relative row order. -/
def generate_report_spec (cc : String) (years : List Nat) (dis : List DisasterRow)
    (plotFails : Nat → Bool) (start : Nat) (rows : List DevRow) : List Page :=
  ((List.enumFrom start rows).filter
      (fun p => !(p.2.values.all Option.isNone) && !(plotFails p.1))).map
    (fun p => renderPage cc years dis p.1 p.2)

/-- C5: a failure while rendering one indicator's page is caught and the
loop continues: the produced document holds exactly one page for each
non-failing, non-skipped indicator, in the original relative row order. -/
theorem renderer_partial_failure_isolation (cc : String) (dev : IndicatorTable)
    (dis : List DisasterRow) (plotFails : Nat → Bool) :
    generate_report cc dev dis plotFails =
      generate_report_spec cc dev.years dis plotFails 1 dev.rows := by
  suffices h : ∀ (i : Nat) (rows : List DevRow),
      reportLoop cc dev.years dis plotFails i rows =
        generate_report_spec cc dev.years dis plotFails i rows from h 1 dev.rows
  intro i rows
  induction rows generalizing i with
  | nil => rfl
  | cons r rest ih =>
    by_cases h1 : r.values.all Option.isNone
    · simp [reportLoop, generate_report_spec, List.enumFrom, List.filter_cons, h1, ih i.succ]
    · by_cases h2 : plotFails i
      · simp [reportLoop, generate_report_spec, List.enumFrom, List.filter_cons, h1, h2,
          ih i.succ]
      · simp [reportLoop, generate_report_spec, List.enumFrom, List.filter_cons, h1, h2,
          ih i.succ]

/-! ## Copy-before-mutate: object-identity model of the two transformers -/

/-- A heap cell holding a development frame: the table proper together with
the NaN_count helper column when present (transform.py lines 61-65). -/
abbrev DevCell := IndicatorTable × Option (List Nat)

/-- Allocate a fresh cell: pandas operations returning a new object. -/
def allocC {α : Type} (s : List α) (t : α) : List α × Nat := (s ++ [t], s.length)

/-- Overwrite a cell: pandas in-place column or block assignment. -/
def writeC {α : Type} (s : List α) (i : Nat) (t : α) : List α := s.set i t

/-- Read the frame held by a cell. -/
def readC {α : Type} [Inhabited α] (s : List α) (i : Nat) : α := s.getD i default

/-- transform_development_data at the granularity of pandas object identity.
The caller's frame lives at cell devPtr; line 46 copies it into a fresh
cell; the label selection (lines 48-51), the two mask filters (lines 62-64
and 68-70) and the helper-column drop (line 65) each return a new frame, so
each rebinds the local variable to a fresh cell; the two in-place mutations
— the NaN_count column assignment (line 61) and the iloc block assignment
of the gap-resolved year block (lines 80-85) — write to the cell currently
bound to the local variable.  Returns the final heap together with the
pointer returned to the caller (or the raised selection error). -/
def transform_development_data_heap (cc : String) (s0 : List DevCell) (devPtr : Nat)
    (mn mx : Nat) : List DevCell × Except String Nat :=
  let v0 := (readC s0 devPtr).1
  let a1 := allocC s0 (v0, none)
  match selectColumns (readC a1.1 a1.2).1 mn mx with
  | Except.error e => (a1.1, Except.error e)
  | Except.ok sel =>
    let a2 := allocC a1.1 (sel, none)
    let s3 := writeC a2.1 a2.2 (sel, some (sel.rows.map (fun r => noneCount r.values)))
    let kept := densityStage (sel.years.length / 2) sel.rows
    let a4 := allocC s3 ({ sel with rows := kept },
      some (kept.map (fun r => noneCount r.values)))
    let a5 := allocC a4.1 ({ sel with rows := kept }, none)
    let z := allZeroStage kept
    let a6 := allocC a5.1 ({ sel with rows := z }, none)
    let s7 := if anyNaN z then
        writeC a6.1 a6.2 ({ sel with rows := resolveStage z }, none)
      else a6.1
    (s7, Except.ok a6.2)

/-- transform_disaster_data at the same granularity: line 134 copies the
caller's frame into a fresh cell, and each of the three mask filters (lines
136-137, 141-144, 147) returns a new frame bound to a fresh cell; the
function performs no in-place write at all. -/
def transform_disaster_data_heap (cc : String) (s0 : List (List DisasterRow))
    (disPtr : Nat) (mn mx : Int) (mta : ℚ) : List (List DisasterRow) × Nat :=
  let v0 := readC s0 disPtr
  let a1 := allocC s0 v0
  let f1 := (readC a1.1 a1.2).filter
    (fun r => decide (mn ≤ r.startYear) && decide (r.startYear ≤ mx))
  let a2 := allocC a1.1 f1
  let f2 := f1.filter
    (fun r => r.magnitudeScale == "Kph" && decide ((178 : ℚ) ≤ r.magnitude))
  let a3 := allocC a2.1 f2
  let f3 := f2.filter (fun r => decide (mta ≤ r.totalAffected))
  let a4 := allocC a3.1 f3
  (a4.1, a4.2)

theorem getD_append_left {α : Type} (s t : List α) (d : α) {i : Nat} (h : i < s.length) :
    (s ++ t).getD i d = s.getD i d := by
  simp [List.getD_eq_getElem?_getD, List.getElem?_append_left h]

theorem getD_set_ne {α : Type} (s : List α) {i j : Nat} (t : α) (d : α) (h : j ≠ i) :
    (s.set j t).getD i d = s.getD i d := by
  simp [List.getD_eq_getElem?_getD, List.getElem?_set_ne h]

/-- C9: both transformers leave the caller's cell untouched — the copy made
on entry means every subsequent rebind or in-place write targets cells the
transformer allocated itself, so the input table reads back unchanged. -/
theorem copy_before_mutate (cc cd : String) (sDev : List DevCell)
    (sDis : List (List DisasterRow)) (p q : Nat) (mn mx : Nat) (mn2 mx2 : Int)
    (mta : ℚ) (hp : p < sDev.length) (hq : q < sDis.length) :
    readC (transform_development_data_heap cc sDev p mn mx).1 p = readC sDev p ∧
      readC (transform_disaster_data_heap cd sDis q mn2 mx2 mta).1 q = readC sDis q := by
  constructor
  · unfold transform_development_data_heap
    dsimp only
    split
    · exact getD_append_left sDev _ _ hp
    · dsimp only [allocC, writeC, readC]
      simp only [List.length_append, List.length_set, List.length_cons, List.length_nil]
      split
      · rw [getD_set_ne _ _ _
            (by first
              | omega
              | (simp only [List.length_append, List.length_set, List.length_cons,
                  List.length_nil]; omega)),
          getD_append_left _ _ _
            (by first
              | omega
              | (simp only [List.length_append, List.length_set, List.length_cons,
                  List.length_nil]; omega)),
          getD_append_left _ _ _
            (by first
              | omega
              | (simp only [List.length_append, List.length_set, List.length_cons,
                  List.length_nil]; omega)),
          getD_append_left _ _ _
            (by first
              | omega
              | (simp only [List.length_append, List.length_set, List.length_cons,
                  List.length_nil]; omega)),
          getD_set_ne _ _ _
            (by first
              | omega
              | (simp only [List.length_append, List.length_set, List.length_cons,
                  List.length_nil]; omega)),
          getD_append_left _ _ _
            (by first
              | omega
              | (simp only [List.length_append, List.length_set, List.length_cons,
                  List.length_nil]; omega)),
          getD_append_left _ _ _ hp]
      · rw [getD_append_left _ _ _
            (by first
              | omega
              | (simp only [List.length_append, List.length_set, List.length_cons,
                  List.length_nil]; omega)),
          getD_append_left _ _ _
            (by first
              | omega
              | (simp only [List.length_append, List.length_set, List.length_cons,
                  List.length_nil]; omega)),
          getD_append_left _ _ _
            (by first
              | omega
              | (simp only [List.length_append, List.length_set, List.length_cons,
                  List.length_nil]; omega)),
          getD_set_ne _ _ _
            (by first
              | omega
              | (simp only [List.length_append, List.length_set, List.length_cons,
                  List.length_nil]; omega)),
          getD_append_left _ _ _
            (by first
              | omega
              | (simp only [List.length_append, List.length_set, List.length_cons,
                  List.length_nil]; omega)),
          getD_append_left _ _ _ hp]
  · unfold transform_disaster_data_heap
    dsimp only [allocC, writeC, readC]
    rw [getD_append_left _ _ _
        (by first
          | omega
          | (simp only [List.length_append, List.length_cons, List.length_nil]; omega)),
      getD_append_left _ _ _
        (by first
          | omega
          | (simp only [List.length_append, List.length_cons, List.length_nil]; omega)),
      getD_append_left _ _ _
        (by first
          | omega
          | (simp only [List.length_append, List.length_cons, List.length_nil]; omega)),
      getD_append_left _ _ _ hq]

/-- Witness for C9 at concrete one-cell heaps. -/
theorem copy_before_mutate_witness :
    readC (transform_development_data_heap "USA"
        [(⟨[2010], [⟨"USA", "Exports", [some 1]⟩]⟩, none)] 0 2010 2010).1 0 =
      readC [((⟨[2010], [⟨"USA", "Exports", [some 1]⟩]⟩ : IndicatorTable), none)] 0 ∧
    readC (transform_disaster_data_heap "USA"
        [[⟨2012, "Kph", 200, 600000, "Sandy", "Yes"⟩]] 0 2007 2023 500000).1 0 =
      readC [[(⟨2012, "Kph", 200, 600000, "Sandy", "Yes"⟩ : DisasterRow)]] 0 :=
  copy_before_mutate "USA" "USA"
    [(⟨[2010], [⟨"USA", "Exports", [some 1]⟩]⟩, none)]
    [[⟨2012, "Kph", 200, 600000, "Sandy", "Yes"⟩]]
    0 0 2010 2010 2007 2023 500000 (by decide) (by decide)

end PostHurricane
